import Mathlib

/-!
Verification development for the nexus-ideas brainstorming application.

Text is modelled as `List Char`; the JavaScript string operations used by the
code (`toLowerCase`, `includes`, `trim`, regex prefix tests) become executable
functions on character lists.  Database rows become structures, database writes
become explicit effect values, and external completion-service calls become
`Option`/`Except` parameters of the embedded functions.
-/

/-- Convert a string literal to its character list. -/
def str (s : String) : List Char := s.data

/-- The apostrophe character, used inside several message templates. -/
def apoC : List Char := [Char.ofNat 39]

/-- JavaScript `toLowerCase` on the characters of a string. -/
def lower (s : List Char) : List Char := s.map Char.toLower

/-- JavaScript `includes`: substring occurrence test, scanning every suffix
of the message for the token as a prefix. -/
def containsTok (tok : List Char) : List Char → Bool
  | [] => tok.isEmpty
  | c :: rest => tok.isPrefixOf (c :: rest) || containsTok tok rest

/-- JavaScript `trim`: drop whitespace from both ends. -/
def trimChars (s : List Char) : List Char :=
  ((s.dropWhile Char.isWhitespace).reverse.dropWhile Char.isWhitespace).reverse

/-!
## Persona Router (`detectAgent`, src/pages/Session.tsx lines 324-331)
-/

/-- Embedding of `detectAgent`: lowercase the message, then test the four
mention tokens as substrings in the fixed order spark, probe, facilitator,
anchor; the first hit wins, otherwise no persona is selected. -/
def detectAgent (message : List Char) : Option (List Char) :=
  let lowerMessage := lower message
  if containsTok (str "@spark") lowerMessage then some (str "spark")
  else if containsTok (str "@probe") lowerMessage then some (str "probe")
  else if containsTok (str "@facilitator") lowerMessage then some (str "facilitator")
  else if containsTok (str "@anchor") lowerMessage then some (str "anchor")
  else none

/-- The priority-ordered mention table, as the specification words it:
token paired with the persona tag it routes to. -/
def mentionPriority : List (List Char × List Char) :=
  [(str "@spark", str "spark"),
   (str "@probe", str "probe"),
   (str "@facilitator", str "facilitator"),
   (str "@anchor", str "anchor")]

/-- Modelled from the spec: return the first persona in the priority table
whose token occurs case-insensitively anywhere in the message, or none. -/
def routeSpec (message : List Char) : Option (List Char) :=
  (mentionPriority.find? (fun p => containsTok p.1 (lower message))).map (fun p => p.2)

/-- C2: the router scans case-insensitively for the mention tokens in the fixed
priority order spark (ideaGenerator), probe (critic), facilitator, anchor
(goalKeeper) as substrings at any position and returns exactly the
first-priority persona whose token occurs, or none when no token occurs; in
particular any input containing the spark token in any case routes to the
idea generator. -/
theorem C2_mention_priority_routing :
    (∀ msg, detectAgent msg = routeSpec msg) ∧
    (∀ msg, containsTok (str "@spark") (lower msg) = true →
      detectAgent msg = some (str "spark")) := by
  constructor
  · intro msg
    unfold detectAgent routeSpec mentionPriority
    cases h1 : containsTok (str "@spark") (lower msg) <;>
      cases h2 : containsTok (str "@probe") (lower msg) <;>
        cases h3 : containsTok (str "@facilitator") (lower msg) <;>
          cases h4 : containsTok (str "@anchor") (lower msg) <;>
            simp [List.find?, h1, h2, h3, h4]
  · intro msg h
    unfold detectAgent
    simp [h]

/-- C2 witness: a concrete mixed-case message containing the spark token is
routed to the idea generator. -/
theorem C2_mention_priority_routing_witness :
    detectAgent (str "Hey @SpArK, any ideas?") = some (str "spark") :=
  C2_mention_priority_routing.2 (str "Hey @SpArK, any ideas?") (by decide)

/-!
## Message rows and the insert operations of the session client
(src/pages/Session.tsx)

A `MessageRow` carries the columns of the `messages` table that the client
ever sets on insert; `user_id` is `none` when the insert statement attaches
no author, and `is_anonymous` is `false` by database default when the insert
statement does not set it.
-/

structure MessageRow where
  agent : List Char
  content : List Char
  user_id : Option Nat
  is_anonymous : Bool
deriving DecidableEq

/-- Content of the automatic facilitator greeting (loadSession, line 296). -/
def greetingContent (goal : Option (List Char)) : List Char :=
  str "Hello everyone! Let" ++ apoC ++ str "s discuss " ++ goal.getD (str "our topic") ++
    str ". Before I call in my team of agents, would anyone like to start by sharing their ideas?"

/-- The automatic facilitator greeting row (loadSession, lines 297-301). -/
def greetingRow (goal : Option (List Char)) : MessageRow :=
  ⟨str "facilitator", greetingContent goal, none, false⟩

/-- A user chat message insert (handleSendMessage, lines 430-435). -/
def userMessageRow (uid : Nat) (content : List Char) : MessageRow :=
  ⟨str "user", content, some uid, false⟩

/-- A persona reply insert (callAgent lines 401-405, and the share branch of
the private-facilitator function). -/
def personaReplyRow (agent content : List Char) : MessageRow :=
  ⟨agent, content, none, false⟩

/-- Content of the 15-message goal-keeper alignment reminder (lines 182-186). -/
def anchorReminderContent (goal : Option (List Char)) : List Char :=
  str "Great discussion so far! Let me remind everyone - our goal is: \"" ++
    goal.getD (str "our main objective") ++
    str "\". Are we still aligned with this goal? Let" ++ apoC ++
    str "s make sure our ideas are serving this purpose."

/-- The 15-message goal-keeper alignment reminder row. -/
def anchorReminderRow (goal : Option (List Char)) : MessageRow :=
  ⟨str "anchor", anchorReminderContent goal, none, false⟩

/-- Content of the 30-message goal-keeper summarization prompt (lines 196-199). -/
def anchorSummaryContent (goal : Option (List Char)) : List Char :=
  str "We" ++ apoC ++ str "ve had a robust discussion with many ideas on the table! I" ++
    apoC ++ str "m wondering - are we ready to start summarizing our key insights? " ++
    str "Or should we narrow down to the most promising ideas that align with our goal: \"" ++
    goal.getD (str "our objective") ++ str "\"?"

/-- The 30-message goal-keeper summarization prompt row. -/
def anchorSummaryRow (goal : Option (List Char)) : MessageRow :=
  ⟨str "anchor", anchorSummaryContent goal, none, false⟩

/-- Content of a facilitator nudge to an inactive participant (lines 239-243). -/
def nudgeContent (name : List Char) (goal : Option (List Char)) : List Char :=
  str "@" ++ name ++ str " - I" ++ apoC ++
    str "d love to hear your thoughts! What ideas do you have about " ++
    goal.getD (str "this topic") ++ str "? Any perspectives you" ++ apoC ++
    str "d like to share?"

/-- A facilitator nudge row for an inactive participant. -/
def nudgeRow (name : List Char) (goal : Option (List Char)) : MessageRow :=
  ⟨str "facilitator", nudgeContent name goal, none, false⟩

/-- The anonymous shared-idea insert (handleSendDM, lines 488-493): the row is
a user-type message with the anonymity flag set and no user identifier. -/
def anonymousShareRow (content : List Char) : MessageRow :=
  ⟨str "user", content, none, true⟩

/-- The message-table insert statements that appear in the session client,
one constructor per insert site in src/pages/Session.tsx. -/
inductive ClientInsert : MessageRow → Prop
  | greeting (goal : Option (List Char)) : ClientInsert (greetingRow goal)
  | userMsg (uid : Nat) (content : List Char) : ClientInsert (userMessageRow uid content)
  | personaReply (agent content : List Char) : ClientInsert (personaReplyRow agent content)
  | anchorReminder (goal : Option (List Char)) : ClientInsert (anchorReminderRow goal)
  | anchorSummary (goal : Option (List Char)) : ClientInsert (anchorSummaryRow goal)
  | nudge (name : List Char) (goal : Option (List Char)) : ClientInsert (nudgeRow name goal)
  | anonShare (content : List Char) : ClientInsert (anonymousShareRow content)

/-- C9: every message row the client inserts with the anonymity flag set true
carries no author identity at all; the only anonymous insert (the anonymous
private-idea sharing path) attaches no user identifier, so an anonymous
message reveals no author. -/
theorem C9_anonymous_rows_carry_no_author :
    ∀ r : MessageRow, ClientInsert r → r.is_anonymous = true → r.user_id = none := by
  intro r h
  cases h <;> intro hanon <;> first
    | rfl
    | simp [greetingRow, userMessageRow, personaReplyRow, anchorReminderRow,
        anchorSummaryRow, nudgeRow, anonymousShareRow] at hanon ⊢

/-- C9 witness: the concrete anonymous shared-idea row has no author. -/
theorem C9_anonymous_rows_carry_no_author_witness :
    (anonymousShareRow (str "an idea")).user_id = none :=
  C9_anonymous_rows_carry_no_author (anonymousShareRow (str "an idea"))
    (ClientInsert.anonShare (str "an idea")) rfl

/-!
## Message-count helpers shared by the scheduler rules
-/

/-- Number of messages carrying a given agent tag (the `filter(...).length`
computations of the inactivity monitor). -/
def countAgent (tag : List Char) (msgs : List MessageRow) : Nat :=
  (msgs.filter (fun m => m.agent == tag)).length

/-!
## Automatic facilitator greeting on load (loadSession, lines 291-303)
-/

/-- Embedding of the greeting step of `loadSession`: after the transcript is
loaded, insert one facilitator greeting exactly when the transcript is empty. -/
def loadGreetingMessages (loaded : List MessageRow) (goal : Option (List Char)) :
    List MessageRow :=
  if loaded.isEmpty then [greetingRow goal] else []

/-- C10: loading a session with an empty transcript appends exactly one
facilitator greeting (whose text contains the session goal when one is set),
the resulting transcript satisfies the kickoff precondition of exactly one
facilitator message and zero user messages, and no greeting is emitted when
the transcript is non-empty on load. -/
theorem C10_automatic_greeting :
    (∀ goal, loadGreetingMessages [] goal = [greetingRow goal] ∧
      (greetingRow goal).agent = str "facilitator" ∧
      (∀ g, goal = some g →
        ∃ pre suf, (greetingRow goal).content = pre ++ g ++ suf) ∧
      countAgent (str "facilitator") (loadGreetingMessages [] goal) = 1 ∧
      countAgent (str "user") (loadGreetingMessages [] goal) = 0) ∧
    (∀ loaded goal, loaded ≠ [] → loadGreetingMessages loaded goal = []) := by
  constructor
  · intro goal
    refine ⟨rfl, rfl, ?_, ?_, ?_⟩
    · rintro g rfl
      exact ⟨str "Hello everyone! Let" ++ apoC ++ str "s discuss ",
        str ". Before I call in my team of agents, would anyone like to start by sharing their ideas?",
        by simp [greetingRow, greetingContent, Option.getD]⟩
    · simp [loadGreetingMessages, countAgent, greetingRow]
    · have h : (str "facilitator" == str "user") = false := by decide
      simp [loadGreetingMessages, countAgent, greetingRow, h]
  · intro loaded goal h
    simp [loadGreetingMessages, List.isEmpty_iff, h]

/-- C10 witness: a concrete load with a non-empty transcript emits nothing,
and the empty-transcript greeting for a concrete goal contains that goal. -/
theorem C10_automatic_greeting_witness :
    loadGreetingMessages [userMessageRow 1 (str "hi")] (some (str "mascot")) = [] ∧
    ∃ pre suf, (greetingRow (some (str "mascot"))).content = pre ++ str "mascot" ++ suf :=
  ⟨C10_automatic_greeting.2 [userMessageRow 1 (str "hi")] (some (str "mascot")) (by simp),
   (C10_automatic_greeting.1 (some (str "mascot"))).2.2.1 (str "mascot") rfl⟩

/-!
## Engagement Scheduler: inactivity timer tick
(src/pages/Session.tsx lines 105-176)

The interval callback computes the elapsed time since last activity as
`(now - last) / 1000` seconds from integer millisecond clocks, so the
comparisons `elapsed > 60` and `elapsed > 120` are exactly
`elapsedMs > 60000` and `elapsedMs > 120000` on natural-number milliseconds.
The alternation register `lastAgentCalledRef` holds either spark or probe and
is initialised to probe.
-/

inductive SP
  | spark
  | probe
deriving DecidableEq

/-- Initial value of `lastAgentCalledRef` (line 49). -/
def initialLastAgent : SP := SP.probe

/-- The alternation step of `triggerAgentForInactivity` (line 160): invoke
whichever of spark and probe was not called last. -/
def toggleSP : SP → SP
  | SP.spark => SP.probe
  | SP.probe => SP.spark

/-- Fixed kickoff prompt passed to spark (`triggerSparkToStart`, line 149). -/
def kickoffPrompt : List Char :=
  str "Please share some initial creative ideas to get us started!"

/-- The role-appropriate inactivity nudge prompt (lines 168-170). -/
def nudgePrompt : SP → List Char
  | SP.spark => str "The conversation has slowed down. Please contribute a fresh, creative idea to re-energize the discussion!"
  | SP.probe => str "The conversation has slowed down. Please challenge an existing idea or ask a critical question to deepen the discussion!"

/-- One tick of the 30-second inactivity interval (lines 114-131): returns the
persona invocation requested (with its prompt), the new value of the
alternation register, and whether the activity clock was reset. -/
def tick (msgs : List MessageRow) (elapsedMs : Nat) (last : SP) :
    Option (SP × List Char) × SP × Bool :=
  if countAgent (str "facilitator") msgs = 1 ∧ countAgent (str "user") msgs = 0 ∧
      60000 < elapsedMs then
    (some (SP.spark, kickoffPrompt), last, true)
  else if 120000 < elapsedMs then
    let next := toggleSP last
    (some (next, nudgePrompt next), next, true)
  else
    (none, last, false)

/-- C6 counterexample: at elapsed time exactly 60 seconds (60000 ms) with
exactly one facilitator message and zero user messages, the tick fires
nothing, although the claim asserts the kickoff rule fires at elapsed >= 60
time-units. -/
theorem C6_cex_kickoff_not_fired_at_exactly_60 :
    countAgent (str "facilitator") [greetingRow none] = 1 ∧
    countAgent (str "user") [greetingRow none] = 0 ∧
    tick [greetingRow none] 60000 SP.probe = (none, SP.probe, false) := by
  refine ⟨by decide, by decide, ?_⟩
  have h1 : countAgent (str "facilitator") [greetingRow none] = 1 := by decide
  have h2 : countAgent (str "user") [greetingRow none] = 0 := by decide
  simp [tick, h1, h2]

/-- C6 (amended): on a scheduler tick, if exactly one facilitator message and
zero user messages exist and strictly more than 60 seconds have elapsed, spark
is invoked with the fixed kickoff prompt and the activity clock resets;
otherwise, if strictly more than 120 seconds have elapsed, the inactivity rule
fires (the alternation partner with its nudge prompt) and the clock resets;
the kickoff rule takes priority. -/
theorem C6_tick_timing_rules :
    (∀ msgs elapsedMs last,
      countAgent (str "facilitator") msgs = 1 →
      countAgent (str "user") msgs = 0 →
      60000 < elapsedMs →
      tick msgs elapsedMs last = (some (SP.spark, kickoffPrompt), last, true)) ∧
    (∀ msgs elapsedMs last,
      ¬ (countAgent (str "facilitator") msgs = 1 ∧ countAgent (str "user") msgs = 0) →
      120000 < elapsedMs →
      tick msgs elapsedMs last =
        (some (toggleSP last, nudgePrompt (toggleSP last)), toggleSP last, true)) ∧
    (∀ msgs elapsedMs last,
      ¬ 60000 < elapsedMs →
      tick msgs elapsedMs last = (none, last, false)) := by
  refine ⟨?_, ?_, ?_⟩
  · intro msgs elapsedMs last h1 h2 h3
    simp [tick, h1, h2, h3]
  · intro msgs elapsedMs last h1 h2
    have hk : ¬ (countAgent (str "facilitator") msgs = 1 ∧
        countAgent (str "user") msgs = 0 ∧ 60000 < elapsedMs) := by
      intro h
      exact h1 ⟨h.1, h.2.1⟩
    simp [tick, hk, h2]
  · intro msgs elapsedMs last h1
    have hk : ¬ (countAgent (str "facilitator") msgs = 1 ∧
        countAgent (str "user") msgs = 0 ∧ 60000 < elapsedMs) := by
      intro h
      exact h1 h.2.2
    have h2 : ¬ 120000 < elapsedMs := by omega
    simp [tick, hk, h2]

/-- C6 witness: concrete ticks exercising all three rules. -/
theorem C6_tick_timing_rules_witness :
    tick [greetingRow none] 60001 SP.probe =
      (some (SP.spark, kickoffPrompt), SP.probe, true) ∧
    tick [] 120001 SP.probe =
      (some (SP.spark, nudgePrompt SP.spark), SP.spark, true) ∧
    tick [greetingRow none] 60000 SP.spark = (none, SP.spark, false) :=
  ⟨C6_tick_timing_rules.1 [greetingRow none] 60001 SP.probe (by decide) (by decide)
      (by omega),
   C6_tick_timing_rules.2.1 [] 120001 SP.probe (by decide) (by omega),
   C6_tick_timing_rules.2.2 [greetingRow none] 60000 SP.spark (by omega)⟩

/-- C8: two consecutive inactivity-rule firings invoke different personas from
spark and probe: each firing invokes the toggle of the register and stores it
back, so the second firing invokes the opposite persona; the register starts
at probe, so the first inactivity firing invokes spark. -/
theorem C8_inactivity_alternation :
    ∀ msgs1 ms1 msgs2 ms2 last,
      ¬ (countAgent (str "facilitator") msgs1 = 1 ∧ countAgent (str "user") msgs1 = 0) →
      120000 < ms1 →
      ¬ (countAgent (str "facilitator") msgs2 = 1 ∧ countAgent (str "user") msgs2 = 0) →
      120000 < ms2 →
      (tick msgs1 ms1 last).1 = some (toggleSP last, nudgePrompt (toggleSP last)) ∧
      (tick msgs2 ms2 (tick msgs1 ms1 last).2.1).1 =
        some (toggleSP (toggleSP last), nudgePrompt (toggleSP (toggleSP last))) ∧
      toggleSP last ≠ toggleSP (toggleSP last) ∧
      toggleSP initialLastAgent = SP.spark := by
  intro msgs1 ms1 msgs2 ms2 last h1 hm1 h2 hm2
  have e1 := C6_tick_timing_rules.2.1 msgs1 ms1 last h1 hm1
  have e2 := C6_tick_timing_rules.2.1 msgs2 ms2 (toggleSP last) h2 hm2
  refine ⟨by rw [e1], ?_, ?_, rfl⟩
  · rw [e1]
    show (tick msgs2 ms2 (toggleSP last)).1 = _
    rw [e2]
  · cases last <;> decide

/-- C8 witness: two concrete consecutive inactivity firings starting from the
initial register value invoke spark then probe. -/
theorem C8_inactivity_alternation_witness :
    (tick [] 120001 initialLastAgent).1 = some (SP.spark, nudgePrompt SP.spark) ∧
    (tick [] 130000 (tick [] 120001 initialLastAgent).2.1).1 =
      some (SP.probe, nudgePrompt SP.probe) :=
  ⟨(C8_inactivity_alternation [] 120001 [] 130000 initialLastAgent (by decide)
      (by omega) (by decide) (by omega)).1,
   (C8_inactivity_alternation [] 120001 [] 130000 initialLastAgent (by decide)
      (by omega) (by decide) (by omega)).2.1⟩

/-!
## Engagement Scheduler: message-count thresholds
(src/pages/Session.tsx lines 96-101 with lines 178-204)

The effect hook runs once per observed transcript; the anchor interventions
are a function of the transcript length alone (the inactivity timer plays no
part).  Within one client session view the observed transcript lengths are
strictly increasing: the initial load sets the transcript once and every
realtime notification appends exactly one message.
-/

/-- The anchor-intervention branch of the messages effect hook: at length
exactly 15 insert the alignment reminder, else at exactly 30 insert the
summarization prompt, else nothing. -/
def anchorThresholdMessages (goal : Option (List Char)) (len : Nat) : List MessageRow :=
  if len = 15 then [anchorReminderRow goal]
  else if len = 30 then [anchorSummaryRow goal]
  else []

/-- Occurrences of a row in a list of emitted rows. -/
def countRow (a : MessageRow) (l : List MessageRow) : Nat :=
  (l.filter (fun x => x = a)).length

theorem countRow_nil (a : MessageRow) : countRow a [] = 0 := rfl

theorem countRow_append (a : MessageRow) (l m : List MessageRow) :
    countRow a (l ++ m) = countRow a l + countRow a m := by
  simp [countRow, List.filter_append]

theorem countRow_singleton (a b : MessageRow) :
    countRow a [b] = if b = a then 1 else 0 := by
  by_cases h : b = a <;> simp [countRow, h]

/-- The reminder and summary rows differ: their contents start with different
characters. -/
theorem anchorRows_ne (g : Option (List Char)) :
    anchorSummaryRow g ≠ anchorReminderRow g := by
  intro h
  have hG : (anchorReminderRow g).content.head? = some 'G' := rfl
  have hW : (anchorSummaryRow g).content.head? = some 'W' := rfl
  rw [h, hG] at hW
  simp at hW

theorem reminderCountThreshold (g : Option (List Char)) (n : Nat) :
    countRow (anchorReminderRow g) (anchorThresholdMessages g n) =
      if n = 15 then 1 else 0 := by
  unfold anchorThresholdMessages
  by_cases h15 : n = 15
  · simp [h15, countRow_singleton]
  · by_cases h30 : n = 30
    · simp [h15, h30, countRow_singleton, anchorRows_ne g]
    · simp [h15, h30, countRow_nil]

theorem summaryCountThreshold (g : Option (List Char)) (n : Nat) :
    countRow (anchorSummaryRow g) (anchorThresholdMessages g n) =
      if n = 30 then 1 else 0 := by
  unfold anchorThresholdMessages
  by_cases h15 : n = 15
  · have hne : anchorReminderRow g ≠ anchorSummaryRow g := fun h => anchorRows_ne g h.symm
    simp [h15, countRow_singleton, hne]
  · by_cases h30 : n = 30
    · simp [h15, h30, countRow_singleton]
    · simp [h15, h30, countRow_nil]

theorem countRow_bind_indicator (L : List Nat) (f : Nat → List MessageRow)
    (a : MessageRow) (t : Nat) (h : ∀ n, countRow a (f n) = if n = t then 1 else 0) :
    countRow a (L.flatMap f) = L.count t := by
  induction L with
  | nil => simp [countRow]
  | cons x xs ih =>
    rw [List.flatMap_cons, countRow_append, h x, ih, List.count_cons]
    by_cases hx : x = t
    · subst hx
      simp [Nat.add_comm]
    · have hb : (t == x) = false := by simp [Ne.symm hx]
      simp [hx, hb]

/-- A strictly increasing list of naturals contains each value at most once. -/
theorem count_of_strict_chain (L : List Nat) (t : Nat)
    (h : List.Chain' (· < ·) L) : L.count t = if t ∈ L then 1 else 0 := by
  have hp : L.Pairwise (· < ·) := (List.chain'_iff_pairwise).mp h
  have hd : L.Nodup := hp.imp Nat.ne_of_lt
  by_cases hm : t ∈ L
  · simp [hm, List.count_eq_one_of_mem hd hm]
  · simp [hm, List.count_eq_zero_of_not_mem hm]

/-- C7: over any strictly increasing trace of transcript lengths observed by
one client session view, the anchor alignment reminder is emitted exactly once
when length 15 is reached (and never otherwise) and the anchor summarization
prompt exactly once when length 30 is reached; the interventions are a
function of the transcript length alone, independent of the inactivity timer. -/
theorem C7_threshold_triggers_fire_once :
    ∀ (L : List Nat) (goal : Option (List Char)),
      List.Chain' (· < ·) L →
      countRow (anchorReminderRow goal) (L.flatMap (anchorThresholdMessages goal)) =
        (if 15 ∈ L then 1 else 0) ∧
      countRow (anchorSummaryRow goal) (L.flatMap (anchorThresholdMessages goal)) =
        (if 30 ∈ L then 1 else 0) := by
  intro L goal h
  constructor
  · rw [countRow_bind_indicator L _ _ 15 (reminderCountThreshold goal)]
    exact count_of_strict_chain L 15 h
  · rw [countRow_bind_indicator L _ _ 30 (summaryCountThreshold goal)]
    exact count_of_strict_chain L 30 h

/-- C7 witness: a concrete client trace passing through lengths 14, 15, 16
and 30 emits the reminder once and the summary prompt once. -/
theorem C7_threshold_triggers_fire_once_witness :
    countRow (anchorReminderRow none)
      ([14, 15, 16, 30].flatMap (anchorThresholdMessages none)) = 1 ∧
    countRow (anchorSummaryRow none)
      ([14, 15, 16, 30].flatMap (anchorThresholdMessages none)) = 1 := by
  have h := C7_threshold_triggers_fire_once [14, 15, 16, 30] none
    (by norm_num [List.chain'_cons])
  refine ⟨?_, ?_⟩
  · rw [h.1]
    decide
  · rw [h.2]
    decide

/-!
## Persona invocation (`callAgent`, src/pages/Session.tsx lines 388-419) and
the chat-agent edge function (missing-reply and error paths)

The chat-agent function returns an error response when the completion call
fails or when the completion response carries no reply text; the client
`supabase.functions.invoke` surfaces that as an error value.  `callAgent`
throws on that error before any insert, and the catch block only shows a
toast, so a failed invocation performs no writes and no retry.
-/

inductive AgentEffect
  | invokeChat
  | insertMessage (row : MessageRow)
  | insertNode
  | toastError
deriving DecidableEq

/-- Embedding of the chat-agent serve handler result (src/unnamed/part_004
lines 100-111): an HTTP failure or a response without a reply both become an
error; otherwise the reply text is returned. -/
def chatAgentServe (ai : Except Unit (Option (List Char))) : Except Unit (List Char) :=
  match ai with
  | Except.error _ => Except.error ()
  | Except.ok none => Except.error ()
  | Except.ok (some reply) => Except.ok reply

/-- Embedding of `callAgent`: one invocation of the chat-agent function, then
on success one persona message insert followed by the concept-extraction
effects, or on failure a single error toast and nothing else. -/
def callAgent (agent : List Char) (invokeResult : Except Unit (List Char))
    (extractionEffects : List AgentEffect) : List AgentEffect :=
  match invokeResult with
  | Except.error _ => [AgentEffect.invokeChat, AgentEffect.toastError]
  | Except.ok reply =>
      [AgentEffect.invokeChat, AgentEffect.insertMessage (personaReplyRow agent reply)] ++
        extractionEffects

/-- C5: for every persona invocation through the completion service, if the
service call errors or the response lacks a reply, no persona message is
appended, no concept extraction or graph mutation occurs, a single
user-visible non-fatal toast is surfaced, and the service is invoked exactly
once (no automatic retry). -/
theorem C5_invocation_atomic_on_failure :
    ∀ (agent : List Char) (ai : Except Unit (Option (List Char)))
      (extractionEffects : List AgentEffect),
      (ai = Except.error () ∨ ai = Except.ok none) →
      callAgent agent (chatAgentServe ai) extractionEffects =
        [AgentEffect.invokeChat, AgentEffect.toastError] ∧
      (∀ row, AgentEffect.insertMessage row ∉
        callAgent agent (chatAgentServe ai) extractionEffects) ∧
      AgentEffect.insertNode ∉ callAgent agent (chatAgentServe ai) extractionEffects ∧
      (callAgent agent (chatAgentServe ai) extractionEffects).count
        AgentEffect.invokeChat = 1 ∧
      AgentEffect.toastError ∈ callAgent agent (chatAgentServe ai) extractionEffects := by
  intro agent ai extractionEffects h
  have he : chatAgentServe ai = Except.error () := by
    rcases h with h | h <;> subst h <;> rfl
  rw [he]
  refine ⟨rfl, ?_, ?_, ?_, ?_⟩
  · intro row
    simp [callAgent]
  · simp [callAgent]
  · simp [callAgent]
  · simp [callAgent]

/-- C5 witness: a concrete failed invocation (service error) produces only the
invocation and the error toast. -/
theorem C5_invocation_atomic_on_failure_witness :
    callAgent (str "spark") (chatAgentServe (Except.error ()))
        [AgentEffect.insertNode] =
      [AgentEffect.invokeChat, AgentEffect.toastError] :=
  (C5_invocation_atomic_on_failure (str "spark") (Except.error ())
    [AgentEffect.insertNode] (Or.inl rfl)).1

/-!
## Session Summarizer
(client `handleEndSession`, src/pages/Session.tsx lines 513-578;
edge function generate-session-summary, src/unnamed/part_005 lines 16-208)

In the client, the summary invocation returns its error as a value, so a
summary failure shows a destructive warning toast and the status update to
ended still runs.  In the edge function, however, a failed image-generation
call throws before the summary row is inserted, so the persistence step is
not isolated from the image step.
-/

inductive EndEffect
  | toastCapturing
  | toastGenerating
  | invokeSummary
  | toastWarning
  | toastSuccess
  | updateStatusEnded
  | toastEnded
  | showDialog
deriving DecidableEq

/-- Embedding of `handleEndSession`: capture toast when an exporter is wired,
generating toast, summary invocation, warning or success toast according to
the invocation outcome, then the status update to ended, the ended toast and
the summary dialog. -/
def handleEndSession (hasExport : Bool) (summaryError : Bool) : List EndEffect :=
  (if hasExport then [EndEffect.toastCapturing] else []) ++
    [EndEffect.toastGenerating, EndEffect.invokeSummary] ++
    (if summaryError then [EndEffect.toastWarning] else [EndEffect.toastSuccess]) ++
    [EndEffect.updateStatusEnded, EndEffect.toastEnded, EndEffect.showDialog]

/-- The four structured fields the summary call must return. -/
structure SummaryFields where
  summary : List Char
  key_insights : List (List Char)
  main_ideas : List (List Char)
  action_items : List (List Char)
deriving DecidableEq

/-- A persisted session-summary row. -/
structure SummaryRow where
  fields : SummaryFields
  mindmap_image_url : Option (List Char)
deriving DecidableEq

/-- Embedding of the generate-session-summary serve handler: it fails when the
transcript is empty, when the structured summary call fails, or when the
image-generation call fails; only if all succeed is one summary row
persisted.  The image call sits before the insert and its failure throws. -/
def generateSessionSummary (msgs : List MessageRow)
    (summaryResp : Except Unit SummaryFields)
    (imageResp : Except Unit (List Char)) : Except Unit SummaryRow :=
  if msgs.isEmpty then Except.error ()
  else
    match summaryResp with
    | Except.error _ => Except.error ()
    | Except.ok fields =>
        match imageResp with
        | Except.error _ => Except.error ()
        | Except.ok url => Except.ok ⟨fields, some url⟩

/-- C4 counterexample: with a non-empty transcript and a successful structured
summary, a failing image-rendering call makes the edge function error out, so
no SessionSummary row is persisted — the image step is not independently
failable as the claim asserts. -/
theorem C4_cex_image_failure_blocks_persistence :
    generateSessionSummary [greetingRow none]
        (Except.ok ⟨str "s", [], [], []⟩) (Except.error ()) =
      Except.error () := rfl

/-- C4 (amended): in the client end-session flow the steps are isolated — for
every end-session action the session status update to ended runs, and when
the summary-generation call fails the failure is reported only as a
non-fatal warning toast; but inside the summary edge function the steps are
sequential and not independently failable: an image-rendering failure aborts
the function before the SessionSummary row is persisted. -/
theorem C4_end_session_failure_isolation :
    (∀ hasExport summaryError,
      EndEffect.updateStatusEnded ∈ handleEndSession hasExport summaryError ∧
      (summaryError = true →
        EndEffect.toastWarning ∈ handleEndSession hasExport summaryError ∧
        EndEffect.toastSuccess ∉ handleEndSession hasExport summaryError)) ∧
    (∀ msgs fields, msgs ≠ [] →
      generateSessionSummary msgs (Except.ok fields) (Except.error ()) =
        Except.error ()) := by
  constructor
  · intro hasExport summaryError
    constructor
    · cases hasExport <;> cases summaryError <;> decide
    · intro hs
      subst hs
      cases hasExport <;> constructor <;> decide
  · intro msgs fields h
    have : msgs.isEmpty = false := by
      cases msgs with
      | nil => exact absurd rfl h
      | cons a l => rfl
    simp [generateSessionSummary, this]

/-- C4 witness: concrete end-session run with a failing summary call still
ends the session with a warning, and a concrete edge-function run with a
failing image call persists nothing. -/
theorem C4_end_session_failure_isolation_witness :
    EndEffect.updateStatusEnded ∈ handleEndSession true true ∧
    EndEffect.toastWarning ∈ handleEndSession true true ∧
    generateSessionSummary [greetingRow none]
        (Except.ok ⟨str "s", [], [], []⟩) (Except.error ()) = Except.error () :=
  ⟨(C4_end_session_failure_isolation.1 true true).1,
   ((C4_end_session_failure_isolation.1 true true).2 rfl).1,
   C4_end_session_failure_isolation.2 [greetingRow none] ⟨str "s", [], [], []⟩
     (by simp)⟩

/-!
## Private Side-Channel Coordinator
(src/supabase/functions/private-facilitator/index.ts)

The handler receives the private conversation history and the new user
message.  The awaiting-share-decision state is the content heuristic: the
most recent facilitator-origin history entry mentions both share and group.
Yes and no are case-insensitive prefix tests over fixed vocabularies applied
to the trimmed message.  The completion-service calls are parameters: the
share-announcement call and the generic private-reply call each either
return text or fail.
-/

/-- A private conversation history entry as sent by the client. -/
structure PrivMsg where
  content : List Char
  from_facilitator : Bool

/-- The affirmative prefix vocabulary of `isYesResponse` (line 36). -/
def yesWords : List (List Char) :=
  [str "yes", str "yeah", str "yep", str "sure", str "ok", str "okay", str "y",
   str "share", str "post"]

/-- The negative prefix vocabulary of `isNoResponse` (line 37). -/
def noWords : List (List Char) :=
  [str "no", str "nah", str "nope", str "n", str "don" ++ apoC ++ str "t", str "dont"]

/-- Case-insensitive prefix test of the trimmed message against the
affirmative vocabulary. -/
def isYesResponse (m : List Char) : Bool :=
  yesWords.any (fun w => w.isPrefixOf (lower (trimChars m)))

/-- Case-insensitive prefix test of the trimmed message against the negative
vocabulary. -/
def isNoResponse (m : List Char) : Bool :=
  noWords.any (fun w => w.isPrefixOf (lower (trimChars m)))

/-- The most recent facilitator-origin entry of the history (filter then take
the last element, lines 40-42). -/
def lastFacilitatorContent (hist : List PrivMsg) : Option (List Char) :=
  ((hist.filter (fun m => m.from_facilitator)).getLast?).map (fun m => m.content)

/-- The awaiting-share-decision heuristic (lines 44-45): the last facilitator
reply mentions both share and group. -/
def isAskingToShare (lastFac : Option (List Char)) : Bool :=
  match lastFac with
  | none => false
  | some c => containsTok (str "share") (lower c) && containsTok (str "group") (lower c)

/-- States of the per-user private thread, as named by the specification. -/
inductive PrivState
  | collecting
  | shared
  | declined
deriving DecidableEq

/-- Result of one private-facilitator handler invocation. -/
structure PrivResult where
  state : PrivState
  publicMessages : List MessageRow
  nodeInserts : Nat
  reply : List Char
  sharedFlag : Bool
deriving DecidableEq

/-- The fixed private acknowledgment returned after sharing (line 151). -/
def shareAck : List Char :=
  str "Alright! I" ++ apoC ++
    str "ll share your idea with the group now. You can close this chat to see the discussion and what everyone thinks!"

/-- Embedding of the private-facilitator serve handler (lines 36-227).
`shareAI` is the share-announcement completion result, `genericAI` the
generic private-reply completion result, and `sharedConcepts` the concepts
extracted from the published announcement (one node insert each).  On the
affirmative branch one facilitator message is posted to the shared chat when
the share call returns text; on the negative and default branches nothing
public is written and the private reply comes from the generic call, whose
failure makes the whole handler error. -/
def privateFacilitatorServe (hist : List PrivMsg) (userMessage : List Char)
    (shareAI : Option (List Char)) (genericAI : Option (List Char))
    (sharedConcepts : Nat) : Except Unit PrivResult :=
  let asking := isAskingToShare (lastFacilitatorContent hist)
  if asking && isYesResponse userMessage then
    match shareAI with
    | some fm =>
        Except.ok ⟨PrivState.shared, [personaReplyRow (str "facilitator") fm],
          sharedConcepts, shareAck, true⟩
    | none => Except.ok ⟨PrivState.shared, [], 0, shareAck, true⟩
  else if asking && isNoResponse userMessage then
    match genericAI with
    | some r => Except.ok ⟨PrivState.declined, [], 0, r, false⟩
    | none => Except.error ()
  else
    match genericAI with
    | some r => Except.ok ⟨PrivState.collecting, [], 0, r, false⟩
    | none => Except.error ()

/-- C3: from the awaiting-share-decision state (most recent facilitator reply
contains both share and group), an affirmative next user message with a
successful share call transitions to shared and produces exactly one new
public message; a negative next user message transitions to declined with
zero public messages; any other input continues collecting with zero public
messages. -/
theorem C3_share_decision :
    ∀ (hist : List PrivMsg) (userMessage : List Char) (fm r : List Char)
      (shareAI genericAI : Option (List Char)) (k : Nat),
      isAskingToShare (lastFacilitatorContent hist) = true →
      (isYesResponse userMessage = true → shareAI = some fm →
        ∃ res, privateFacilitatorServe hist userMessage shareAI genericAI k =
            Except.ok res ∧
          res.state = PrivState.shared ∧ res.publicMessages.length = 1) ∧
      (isYesResponse userMessage = false → isNoResponse userMessage = true →
        genericAI = some r →
        privateFacilitatorServe hist userMessage shareAI genericAI k =
          Except.ok ⟨PrivState.declined, [], 0, r, false⟩) ∧
      (isYesResponse userMessage = false → isNoResponse userMessage = false →
        genericAI = some r →
        privateFacilitatorServe hist userMessage shareAI genericAI k =
          Except.ok ⟨PrivState.collecting, [], 0, r, false⟩) := by
  intro hist userMessage fm r shareAI genericAI k hask
  refine ⟨?_, ?_, ?_⟩
  · intro hyes hai
    subst hai
    refine ⟨⟨PrivState.shared, [personaReplyRow (str "facilitator") fm],
      k, shareAck, true⟩, ?_, rfl, rfl⟩
    simp [privateFacilitatorServe, hask, hyes]
  · intro hyes hno hai
    subst hai
    simp [privateFacilitatorServe, hask, hyes, hno]
  · intro hyes hno hai
    subst hai
    simp [privateFacilitatorServe, hask, hyes, hno]

/-- C3 witness: with a facilitator question mentioning share and group, the
concrete input saying yes please shares exactly one public message, and the
concrete input saying no thanks declines with zero public messages. -/
theorem C3_share_decision_witness :
    (∃ res, privateFacilitatorServe
        [⟨str "Shall I share this idea with the group?", true⟩]
        (str "yes please") (some (str "Someone suggested a fox mascot!"))
        (some (str "Understood.")) 2 = Except.ok res ∧
      res.state = PrivState.shared ∧ res.publicMessages.length = 1) ∧
    privateFacilitatorServe
        [⟨str "Shall I share this idea with the group?", true⟩]
        (str "no thanks") (some (str "Someone suggested a fox mascot!"))
        (some (str "Understood.")) 2 =
      Except.ok ⟨PrivState.declined, [], 0, str "Understood.", false⟩ :=
  ⟨(C3_share_decision [⟨str "Shall I share this idea with the group?", true⟩]
      (str "yes please") (str "Someone suggested a fox mascot!") (str "Understood.")
      (some (str "Someone suggested a fox mascot!")) (some (str "Understood.")) 2
      (by decide)).1 (by decide) rfl,
   ((C3_share_decision [⟨str "Shall I share this idea with the group?", true⟩]
      (str "no thanks") (str "Someone suggested a fox mascot!") (str "Understood.")
      (some (str "Someone suggested a fox mascot!")) (some (str "Understood.")) 2
      (by decide)).2.1 (by decide) (by decide) rfl)⟩

/-!
## Concept Extractor Bridge (`extractConcepts`, src/pages/Session.tsx
lines 333-386)

Positions are rationals; each `Math.random()` draw is a parameter in the
half-open unit interval.  For each proposed concept the code draws a default
position, and when the concept names connections that resolve to existing
nodes it instead positions the new node at the first resolved parent plus an
offset of `r * 200 - 100` on each axis, then inserts one node row tagged with
the originating persona and source message.  The code contains no
mind-map-edge insert: the only edge insert in the repository is the manual
connect mode of the MindMap component.
-/

/-- An existing mind-map node as read from the store (label and position). -/
structure ExNode where
  label : List Char
  x : ℚ
  y : ℚ

/-- A proposed concept from the extraction call: a label plus the labels of
existing concepts it connects to. -/
structure ProposedConcept where
  label : List Char
  connections : List (List Char)

/-- A mind-map node insert row. -/
structure NodeInsert where
  label : List Char
  x : ℚ
  y : ℚ
  agent : List Char
  message_id : Nat

/-- A write against the concept-graph store. -/
inductive GraphEffect
  | insertNode (n : NodeInsert)
  | insertEdge (src tgt : Nat)

/-- The store query `.in('label', connections)`: the existing nodes whose
label is one of the named connections, in table order. -/
def resolveParents (nodes : List ExNode) (conns : List (List Char)) : List ExNode :=
  nodes.filter (fun n => conns.contains n.label)

/-- Processing of one proposed concept (loop body, lines 351-381), with the
four random draws of the iteration passed explicitly. -/
def processConcept (nodes : List ExNode) (agent : List Char) (mid : Nat)
    (c : ProposedConcept) (r1 r2 r3 r4 : ℚ) : List GraphEffect :=
  let defX := r1 * 600
  let defY := r2 * 400
  if c.connections.isEmpty then
    [GraphEffect.insertNode ⟨c.label, defX, defY, agent, mid⟩]
  else
    match resolveParents nodes c.connections with
    | [] => [GraphEffect.insertNode ⟨c.label, defX, defY, agent, mid⟩]
    | p :: _ =>
        [GraphEffect.insertNode
          ⟨c.label, p.x + (r3 * 200 - 100), p.y + (r4 * 200 - 100), agent, mid⟩]

/-- The whole `extractConcepts` write sequence over the proposed concepts,
consuming one quadruple of random draws per concept. -/
def extractConceptsRun (nodes : List ExNode) (agent : List Char) (mid : Nat)
    (concepts : List ProposedConcept) (rs : List (ℚ × ℚ × ℚ × ℚ)) : List GraphEffect :=
  (concepts.zip rs).flatMap
    (fun p => processConcept nodes agent mid p.1 p.2.1 p.2.2.1 p.2.2.2.1 p.2.2.2.2)

/-- Number of edge inserts among the emitted graph writes. -/
def countEdgeInserts (es : List GraphEffect) : Nat :=
  (es.filter (fun e => match e with
    | GraphEffect.insertEdge _ _ => true
    | _ => false)).length

theorem processConcept_no_edges (nodes : List ExNode) (agent : List Char)
    (mid : Nat) (c : ProposedConcept) (r1 r2 r3 r4 : ℚ) :
    countEdgeInserts (processConcept nodes agent mid c r1 r2 r3 r4) = 0 := by
  unfold processConcept countEdgeInserts
  by_cases h : c.connections.isEmpty
  · simp [h]
  · simp only [h, if_false, Bool.false_eq_true]
    cases resolveParents nodes c.connections <;> simp

theorem countEdgeInserts_append (l m : List GraphEffect) :
    countEdgeInserts (l ++ m) = countEdgeInserts l + countEdgeInserts m := by
  simp [countEdgeInserts, List.filter_append]

/-- C1 counterexample: a concrete extraction run in which the proposed
concept names a connection that resolves to an existing node performs a
single node insert and zero edge inserts, although the claim asserts one
directed edge per resolved parent is created. -/
theorem C1_cex_no_edges_created :
    resolveParents [⟨str "A", 0, 0⟩] [str "A"] ≠ [] ∧
    countEdgeInserts (extractConceptsRun [⟨str "A", 0, 0⟩] (str "spark") 1
      [⟨str "B", [str "A"]⟩] [(0, 0, 0, 0)]) = 0 := by
  constructor
  · intro h
    have : (resolveParents [⟨str "A", 0, 0⟩] [str "A"]).length = 1 := rfl
    rw [h] at this
    simp at this
  · rfl

/-- C1 (amended): for every proposed concept whose connections resolve to one
or more existing nodes, the bridge emits exactly one node insert, positioned
at the first resolved parent plus an offset bounded by 100 on each axis
(instead of the random default position), tagged with the originating persona
and source message; no concept edges are created by any extraction run. -/
theorem C1_extraction_positions_and_tags :
    (∀ (nodes : List ExNode) (agent : List Char) (mid : Nat) (c : ProposedConcept)
      (r1 r2 r3 r4 : ℚ) (p : ExNode) (ps : List ExNode),
      0 ≤ r3 → r3 < 1 → 0 ≤ r4 → r4 < 1 →
      c.connections ≠ [] →
      resolveParents nodes c.connections = p :: ps →
      processConcept nodes agent mid c r1 r2 r3 r4 =
        [GraphEffect.insertNode
          ⟨c.label, p.x + (r3 * 200 - 100), p.y + (r4 * 200 - 100), agent, mid⟩] ∧
      |(p.x + (r3 * 200 - 100)) - p.x| ≤ 100 ∧
      |(p.y + (r4 * 200 - 100)) - p.y| ≤ 100) ∧
    (∀ nodes agent mid concepts rs,
      countEdgeInserts (extractConceptsRun nodes agent mid concepts rs) = 0) := by
  constructor
  · intro nodes agent mid c r1 r2 r3 r4 p ps h3l h3u h4l h4u hconn hres
    have hne : c.connections.isEmpty = false := by
      cases hc : c.connections with
      | nil => exact absurd hc hconn
      | cons a l => rfl
    refine ⟨?_, ?_, ?_⟩
    · unfold processConcept
      simp only [hne, Bool.false_eq_true, if_false, hres]
    · have : p.x + (r3 * 200 - 100) - p.x = r3 * 200 - 100 := by ring
      rw [this]
      rw [abs_le]
      constructor <;> nlinarith
    · have : p.y + (r4 * 200 - 100) - p.y = r4 * 200 - 100 := by ring
      rw [this]
      rw [abs_le]
      constructor <;> nlinarith
  · intro nodes agent mid concepts rs
    unfold extractConceptsRun
    induction (concepts.zip rs) with
    | nil => rfl
    | cons x xs ih =>
      rw [List.flatMap_cons, countEdgeInserts_append, ih, processConcept_no_edges]

/-- C1 witness: a concrete concept connecting to an existing node at (3, 4)
with concrete draws is inserted at the parent plus a bounded offset, tagged
with the persona and message; and the concrete run creates no edges. -/
theorem C1_extraction_positions_and_tags_witness :
    processConcept [⟨str "A", 3, 4⟩] (str "spark") 7 ⟨str "B", [str "A"]⟩
        (1/2) (1/2) (1/2) (3/4) =
      [GraphEffect.insertNode ⟨str "B", 3 + ((1:ℚ)/2 * 200 - 100),
        4 + ((3:ℚ)/4 * 200 - 100), str "spark", 7⟩] ∧
    countEdgeInserts (extractConceptsRun [⟨str "A", 3, 4⟩] (str "spark") 7
      [⟨str "B", [str "A"]⟩] [(1/2, 1/2, 1/2, 3/4)]) = 0 :=
  ⟨(C1_extraction_positions_and_tags.1 [⟨str "A", 3, 4⟩] (str "spark") 7
      ⟨str "B", [str "A"]⟩ (1/2) (1/2) (1/2) (3/4) ⟨str "A", 3, 4⟩ []
      (by norm_num) (by norm_num) (by norm_num) (by norm_num)
      (by simp) (by rfl)).1,
   C1_extraction_positions_and_tags.2 [⟨str "A", 3, 4⟩] (str "spark") 7
     [⟨str "B", [str "A"]⟩] [(1/2, 1/2, 1/2, 3/4)]⟩
